import Mathlib

/-!
# Typed errors with a category and a context (package `errors`, file `errors.go`)

A shallow embedding of `errors.go`.  The Go interface type `error` is the
inductive type `GoError`: the nil interface value, the dynamic types of the two
libraries the file imports (`github.com/pkg/errors` and `fmt`), error types
declared elsewhere, and the struct `customError` of the file itself.

What is left out of the error values: the recorded call stacks of
`github.com/pkg/errors` (no function of `errors.go` reads them) and pointer
identity (two errors are equal when their fields are).
-/

namespace Errors

/-- ErrorType is the type of an error (`type ErrorType uint`); every natural
number stands for the `uint` of the same value. -/
abbrev ErrorType := Nat

/-- NoType error (`iota` = 0). -/
def NoType : ErrorType := 0

/-- BadRequest error. -/
def BadRequest : ErrorType := 1

/-- NotFound error. -/
def NotFound : ErrorType := 2

/-- AccessDenied error. -/
def AccessDenied : ErrorType := 3

/-- The struct `errorContext`. -/
structure errorContext where
  Field : String
  Message : String
deriving DecidableEq, Repr

/-- Values of the Go interface type `error`.

* `nil`: the nil interface value;
* `fundamental`, `withMessage`, `withStack`: the three error types of
  `github.com/pkg/errors` (stacks omitted);
* `fmtError`: an error returned by `fmt.Errorf`, of which only the text is kept;
* `foreign`: an error of a type declared elsewhere that has only `Error()`;
* `foreignCauser`: an error of a type declared elsewhere that also has a
  method `Cause() error`;
* `custom`: a value of the struct `customError` of `errors.go`, with its three
  fields `errorType`, `originalError`, `context`. -/
inductive GoError where
  | nil
  | fundamental (msg : String)
  | withMessage (cause : GoError) (msg : String)
  | withStack (err : GoError)
  | fmtError (s : String)
  | foreign (text : String)
  | foreignCauser (text : String) (cause : GoError)
  | custom (errorType : ErrorType) (originalError : GoError) (context : errorContext)
deriving DecidableEq, Repr

/-- The struct `customError`, as a record of its three fields. -/
structure customError where
  errorType : ErrorType
  originalError : GoError
  context : errorContext
deriving DecidableEq, Repr

/-- Conversion of a `customError` struct value to the interface type `error`. -/
def customError.toError (c : customError) : GoError :=
  GoError.custom c.errorType c.originalError c.context

/-- The zero value of `errorContext` (`errorContext{}`). -/
def emptyContext : errorContext := { Field := "", Message := "" }

/-- The zero value of `customError`: what the comma-ok type assertion leaves in
its first result when it fails. -/
def customError.zero : customError :=
  { errorType := 0, originalError := GoError.nil, context := emptyContext }

/-- The comma-ok type assertion `err.(customError)`. -/
def assertCustomError : GoError → customError × Bool
  | GoError.custom t o c => ({ errorType := t, originalError := o, context := c }, true)
  | _ => (customError.zero, false)

/-- An operand of a variadic formatting call (`args ...interface{}`). -/
inductive GoValue where
  | int (n : Int)
  | str (s : String)
  | err (e : GoError)
deriving DecidableEq, Repr

/-- The method `Error()` of an error value; `none` is the run-time panic of a
method call on the nil interface value. -/
def GoError.Error : GoError → Option String
  | GoError.nil => none
  | GoError.fundamental msg => some msg
  | GoError.withMessage cause msg => (GoError.Error cause).map (fun s => msg ++ ": " ++ s)
  | GoError.withStack err => GoError.Error err
  | GoError.fmtError s => some s
  | GoError.foreign text => some text
  | GoError.foreignCauser text _ => some text
  | GoError.custom _ originalError _ => GoError.Error originalError

/-- The formatting primitive of package `fmt` (as of Go 1.13, which brought the
verb `%w`), which is not part of the repository, taken as a parameter outside
the directives listed at `doPrintfFragment`: `verbs format args` is the text
that `fmt.Sprintf` gives, `errorfVerbs format args` the text of the error that
`fmt.Errorf` gives, and `operandText v` what `fmt` prints between the
parentheses of `%!w(...)` for an operand under a verb that does not fit it (its
type, `=`, and its value). -/
structure Fmt where
  verbs : String → List GoValue → String
  errorfVerbs : String → List GoValue → String
  operandText : GoValue → String

/-- A format without any `%` and without operands: `fmt` copies it out as is. -/
def isVerbatim (format : String) (args : List GoValue) : Bool :=
  format.toList.all (fun c => c != '%') && args.isEmpty

/-- The text that an error operand gives under `%w` in `fmt.Errorf`, where the
verb is served as `%v`: the text of its method `Error()`. Left out (`none`) are
the nil operand, an operand whose `Error()` panics, and an operand of a type
declared elsewhere, which may bring a formatting method of its own. -/
def wrappedOperandText : GoError → Option String
  | GoError.foreign _ => none
  | GoError.foreignCauser _ _ => none
  | e => GoError.Error e

/-- The scan of a format by `fmt` (`doPrintf`), on the directives that are
spelled out here; `none` stands for a format or operand list outside them.
`wrapErrs` is set by `fmt.Errorf` and not by `fmt.Sprintf`.

* a character other than `%` is copied;
* a `%` that ends the format, with no operand left, gives `%!(NOVERB)`;
* `%d` with an operand of type `int` gives its decimal digits;
* `%w` with the nil error as operand gives `%!w(<nil>)` in both functions
  (`printArg` turns a nil operand away before it looks at `wrapErrs`);
* `%w` with a non-nil operand of type `error` gives, in `fmt.Errorf`, the text
  of that error, and in `fmt.Sprintf`, where the verb fits no operand,
  `%!w(` type=value `)`;
* operands left over at the end of the format are outside the fragment. -/
def doPrintfFragment (F : Fmt) (wrapErrs : Bool) :
    List Char → List GoValue → Option (List Char)
  | [], [] => some []
  | [], _ :: _ => none
  | c :: rest, args =>
    if c = '%' then
      match rest, args with
      | [], [] => some "%!(NOVERB)".toList
      | 'd' :: rest1, GoValue.int n :: args1 =>
        (doPrintfFragment F wrapErrs rest1 args1).map (fun out => (toString n).toList ++ out)
      | 'w' :: rest1, GoValue.err e :: args1 =>
        if e = GoError.nil then
          (doPrintfFragment F wrapErrs rest1 args1).map (fun out => "%!w(<nil>)".toList ++ out)
        else if wrapErrs then
          match wrappedOperandText e with
          | some text =>
            (doPrintfFragment F wrapErrs rest1 args1).map (fun out => text.toList ++ out)
          | none => none
        else
          (doPrintfFragment F wrapErrs rest1 args1).map
            (fun out => ("%!w(" ++ F.operandText (GoValue.err e) ++ ")").toList ++ out)
      | _, _ => none
    else
      (doPrintfFragment F wrapErrs rest args).map (fun out => c :: out)

/-- A character that `fmt` may read between the `%` of a directive and its
verb: a flag (`#`, `0`, `+`, `-`, space), a digit of a width, of a precision or
of an argument index, the `.` of a precision, the `*` of a width or precision
taken from an operand, or a bracket of an argument index. -/
def isDirectiveModifier (c : Char) : Bool :=
  c = '#' || c = '+' || c = '-' || c = ' ' || c = '.' || c = '*' || c = '[' || c = ']' ||
    c.isDigit

/-- What follows a `%` is a run of directive modifiers and then the verb `w`. -/
def verbWFollows : List Char → Bool
  | [] => false
  | c :: rest =>
    if c = 'w' then true
    else if isDirectiveModifier c then verbWFollows rest
    else false

/-- Some `%` of the characters is followed by directive modifiers and then `w`. -/
def hasVerbWChars : List Char → Bool
  | [] => false
  | c :: rest => (c = '%' && verbWFollows rest) || hasVerbWChars rest

/-- The format may hold a directive of verb `%w`: some `%` of it is followed by
directive modifiers only and then by `w`. Every directive that `fmt` serves
under the verb `w` has this shape (a directive whose argument index holds
anything but digits is answered `%!w(BADINDEX)` without a look at the operand).
A `w` in the plain text of the format, as in "%d rows written", does not
count. -/
def hasVerbW (format : String) : Bool :=
  hasVerbWChars format.toList

/-- The operand is a non-nil value of type `error`: the one kind of operand
that `fmt.Errorf` and `fmt.Sprintf` print differently under the verb `%w`. -/
def isErrorOperand : GoValue → Bool
  | GoValue.err GoError.nil => false
  | GoValue.err _ => true
  | _ => false

/-- The text of `fmt.Sprintf(format, args...)`. -/
def Sprintf (F : Fmt) (format : String) (args : List GoValue) : String :=
  if isVerbatim format args then format
  else
    match doPrintfFragment F false format.toList args with
    | some out => String.mk out
    | none => F.verbs format args

/-- The text of the error of `fmt.Errorf(format, args...)`: the scan of
`fmt.Sprintf` with `wrapErrs` set, which `fmt` consults only when it serves the
verb `%w` on an operand of type `error`. -/
def errorfText (F : Fmt) (format : String) (args : List GoValue) : String :=
  if isVerbatim format args then format
  else
    match doPrintfFragment F true format.toList args with
    | some out => String.mk out
    | none =>
      if hasVerbW format && args.any isErrorOperand then F.errorfVerbs format args
      else F.verbs format args

/-- The error of `fmt.Errorf(format, args...)`. -/
def Errorf (F : Fmt) (format : String) (args : List GoValue) : GoError :=
  GoError.fmtError (errorfText F format args)

/-- A formatter that leaves every directive as it is written; it instantiates
the parameter `Fmt` where a concrete one is needed. -/
def Fmt.unexpanded : Fmt :=
  { verbs := fun format _ => format, errorfVerbs := fun format _ => format,
    operandText := fun _ => "" }

namespace pkgerrors

/-- The function `New` of `github.com/pkg/errors`: `&fundamental{msg: message, ...}`. -/
def New (message : String) : GoError :=
  GoError.fundamental message

/-- The function `Wrapf` of `github.com/pkg/errors`: nil for a nil error, else a
`withStack` around a `withMessage` whose message is the formatted text. -/
def Wrapf (F : Fmt) (err : GoError) (format : String) (args : List GoValue) : GoError :=
  match err with
  | GoError.nil => GoError.nil
  | e => GoError.withStack (GoError.withMessage e (Sprintf F format args))

/-- The function `Cause` of `github.com/pkg/errors`: follows the method
`Cause()` as long as the error has one. Of the error types of the model,
`withMessage`, `withStack` and `foreignCauser` have that method. -/
def Cause : GoError → GoError
  | GoError.withMessage cause _ => Cause cause
  | GoError.withStack err => Cause err
  | GoError.foreignCauser _ cause => Cause cause
  | e => e

end pkgerrors

/-- New creates a new customError (method of `ErrorType`). -/
def ErrorType.New (errorType : ErrorType) (msg : String) : GoError :=
  customError.toError
    { errorType := errorType, originalError := pkgerrors.New msg, context := emptyContext }

/-- Newf creates a new customError with formatted message (method of `ErrorType`). -/
def ErrorType.Newf (F : Fmt) (errorType : ErrorType) (format : String)
    (args : List GoValue) : GoError :=
  customError.toError
    { errorType := errorType, originalError := Errorf F format args, context := emptyContext }

/-- Wrapf creates a new wrapped error with formatted message (method of `ErrorType`). -/
def ErrorType.Wrapf (F : Fmt) (errorType : ErrorType) (err : GoError) (format : String)
    (args : List GoValue) : GoError :=
  customError.toError
    { errorType := errorType, originalError := pkgerrors.Wrapf F err format args,
      context := emptyContext }

/-- Wrap creates a new wrapped error (method of `ErrorType`). -/
def ErrorType.Wrap (F : Fmt) (errorType : ErrorType) (err : GoError) (msg : String) : GoError :=
  ErrorType.Wrapf F errorType err msg []

/-- New creates a no type error. -/
def New (msg : String) : GoError :=
  customError.toError
    { errorType := NoType, originalError := pkgerrors.New msg, context := emptyContext }

/-- Newf creates a no type error with formatted message. -/
def Newf (F : Fmt) (format : String) (args : List GoValue) : GoError :=
  customError.toError
    { errorType := NoType, originalError := pkgerrors.New (Sprintf F format args),
      context := emptyContext }

/-- Cause gives the original error. -/
def Cause (err : GoError) : GoError :=
  pkgerrors.Cause err

/-- Wrapf an error with format string. -/
def Wrapf (F : Fmt) (err : GoError) (format : String) (args : List GoValue) : GoError :=
  let wrappedError := pkgerrors.Wrapf F err format args
  match assertCustomError err with
  | (customErr, true) =>
    customError.toError
      { errorType := customErr.errorType, originalError := wrappedError,
        context := customErr.context }
  | (_, false) =>
    customError.toError
      { errorType := NoType, originalError := wrappedError, context := emptyContext }

/-- Wrap an error with a string. -/
def Wrap (F : Fmt) (err : GoError) (msg : String) : GoError :=
  Wrapf F err msg []

/-- AddErrorContext adds a context to an error. -/
def AddErrorContext (err : GoError) (field message : String) : GoError :=
  let context : errorContext := { Field := field, Message := message }
  match assertCustomError err with
  | (customErr, true) =>
    customError.toError
      { errorType := customErr.errorType, originalError := customErr.originalError,
        context := context }
  | (_, false) =>
    customError.toError { errorType := NoType, originalError := err, context := context }

/-- GetErrorContext returns the error context: a map of two keys, or the nil
map (`none`). The map is the list of its entries. -/
def GetErrorContext (err : GoError) : Option (List (String × String)) :=
  match assertCustomError err with
  | (customErr, ok) =>
    if ok || customErr.context != emptyContext then
      some [("field", customErr.context.Field), ("message", customErr.context.Message)]
    else
      none

/-- GetType returns the error type. -/
def GetType (err : GoError) : ErrorType :=
  match assertCustomError err with
  | (customErr, true) => customErr.errorType
  | (_, false) => NoType

/-- One step of re-wrapping: a generic `Wrap`, a generic `Wrapf` or an
`AddErrorContext`, with its arguments. -/
inductive Rewrap where
  | wrap (msg : String)
  | wrapf (format : String) (args : List GoValue)
  | addContext (field message : String)
deriving DecidableEq, Repr

/-- The error one re-wrapping step returns. -/
def Rewrap.apply (F : Fmt) : Rewrap → GoError → GoError
  | Rewrap.wrap msg, e => Wrap F e msg
  | Rewrap.wrapf format args, e => Wrapf F e format args
  | Rewrap.addContext field message, e => AddErrorContext e field message

/-- The steps applied one after another, the first of the list first. -/
def rewrapAll (F : Fmt) (ops : List Rewrap) (e : GoError) : GoError :=
  ops.foldl (fun acc op => Rewrap.apply F op acc) e

/-- The error `te` is what a typed constructor of category `C` returns:
`C.New`, `C.Newf`, `C.Wrap` or `C.Wrapf`. -/
def BuiltByTyped (F : Fmt) (C : ErrorType) (te : GoError) : Prop :=
  (∃ m, te = ErrorType.New C m) ∨
  (∃ format args, te = ErrorType.Newf F C format args) ∨
  (∃ err m, te = ErrorType.Wrap F C err m) ∨
  (∃ err format args, te = ErrorType.Wrapf F C err format args)

/-- The error has a method `Cause() error`, the one `github.com/pkg/errors`
looks for: so it is for `withMessage`, `withStack` and `foreignCauser`, and not
for `customError`, which declares `Error()` only. -/
def hasCauseMethod : GoError → Bool
  | GoError.withMessage _ _ => true
  | GoError.withStack _ => true
  | GoError.foreignCauser _ _ => true
  | _ => false

/-- The cause of a `customError`: its field `originalError` (nil when the error
is not a `customError`). -/
def causeField (err : GoError) : GoError :=
  (assertCustomError err).1.originalError

/-! ## Helper lemmas -/

theorem getType_custom (t : ErrorType) (o : GoError) (c : errorContext) :
    GetType (GoError.custom t o c) = t := rfl

theorem getErrorContext_custom (t : ErrorType) (o : GoError) (c : errorContext) :
    GetErrorContext (GoError.custom t o c) = some [("field", c.Field), ("message", c.Message)] := by
  simp [GetErrorContext, assertCustomError]

theorem assertCustomError_custom (t : ErrorType) (o : GoError) (c : errorContext) :
    assertCustomError (GoError.custom t o c) =
      ({ errorType := t, originalError := o, context := c }, true) := rfl

/-- An error that is not a `customError` asserts to the zero value. -/
theorem assertCustomError_of_not_ok (e : GoError) (h : (assertCustomError e).2 = false) :
    assertCustomError e = (customError.zero, false) := by
  cases e <;> simp_all [assertCustomError]

/-- The generic `Wrapf` on a typed error keeps the category and the context. -/
theorem wrapf_custom (F : Fmt) (t : ErrorType) (o : GoError) (c : errorContext)
    (format : String) (args : List GoValue) :
    Wrapf F (GoError.custom t o c) format args =
      GoError.custom t (pkgerrors.Wrapf F (GoError.custom t o c) format args) c := rfl

/-- The generic `Wrapf` on an error that is not typed gives `NoType` and the
empty context. -/
theorem wrapf_of_not_ok (F : Fmt) (e : GoError) (h : (assertCustomError e).2 = false)
    (format : String) (args : List GoValue) :
    Wrapf F e format args =
      GoError.custom NoType (pkgerrors.Wrapf F e format args) emptyContext := by
  simp [Wrapf, assertCustomError_of_not_ok e h, customError.toError]

theorem addErrorContext_custom (t : ErrorType) (o : GoError) (c : errorContext)
    (field message : String) :
    AddErrorContext (GoError.custom t o c) field message =
      GoError.custom t o { Field := field, Message := message } := rfl

theorem addErrorContext_of_not_ok (e : GoError) (h : (assertCustomError e).2 = false)
    (field message : String) :
    AddErrorContext e field message =
      GoError.custom NoType e { Field := field, Message := message } := by
  simp [AddErrorContext, assertCustomError_of_not_ok e h, customError.toError]

/-- The category of an error that is not typed is `NoType`. -/
theorem getType_of_not_ok (e : GoError) (h : (assertCustomError e).2 = false) :
    GetType e = NoType := by
  simp [GetType, assertCustomError_of_not_ok e h]

/-- The generic `Wrapf` never changes what `GetType` reports. -/
theorem getType_wrapf (F : Fmt) (e : GoError) (format : String) (args : List GoValue) :
    GetType (Wrapf F e format args) = GetType e := by
  cases h : (assertCustomError e).2
  · rw [wrapf_of_not_ok F e h, getType_custom, getType_of_not_ok e h]
  · cases e <;> simp_all [assertCustomError, wrapf_custom, getType_custom]

/-- The annotation never changes what `GetType` reports. -/
theorem getType_addErrorContext (e : GoError) (field message : String) :
    GetType (AddErrorContext e field message) = GetType e := by
  cases h : (assertCustomError e).2
  · rw [addErrorContext_of_not_ok e h, getType_custom, getType_of_not_ok e h]
  · cases e <;> simp_all [assertCustomError, addErrorContext_custom, getType_custom]

/-- One re-wrapping step never changes what `GetType` reports. -/
theorem getType_rewrap_apply (F : Fmt) (op : Rewrap) (e : GoError) :
    GetType (Rewrap.apply F op e) = GetType e := by
  cases op with
  | wrap msg => exact getType_wrapf F e msg []
  | wrapf format args => exact getType_wrapf F e format args
  | addContext field message => exact getType_addErrorContext e field message

/-- Any number of re-wrapping steps never changes what `GetType` reports. -/
theorem getType_rewrapAll (F : Fmt) (ops : List Rewrap) (e : GoError) :
    GetType (rewrapAll F ops e) = GetType e := by
  induction ops generalizing e with
  | nil => rfl
  | cons op rest ih =>
    show GetType (rewrapAll F rest (Rewrap.apply F op e)) = GetType e
    rw [ih, getType_rewrap_apply]

/-- Every typed constructor of category `C` returns an error of category `C`. -/
theorem getType_of_builtByTyped (F : Fmt) (C : ErrorType) (te : GoError)
    (h : BuiltByTyped F C te) : GetType te = C := by
  rcases h with ⟨m, rfl⟩ | ⟨format, args, rfl⟩ | ⟨err, m, rfl⟩ | ⟨err, format, args, rfl⟩ <;> rfl

/-- The function `Cause` of `github.com/pkg/errors` stops at a `customError`,
which has no method `Cause()`. -/
theorem pkgCause_custom (t : ErrorType) (o : GoError) (c : errorContext) :
    pkgerrors.Cause (GoError.custom t o c) = GoError.custom t o c := rfl

/-! ## The claims -/

/-- C1: for every category `C` and message `m`, the error `C.New(m)` has
`GetType` equal to `C` and an empty context: `GetErrorContext` gives the map
with field "" and message "". -/
theorem c1_typed_new_category_and_empty_context (C : ErrorType) (m : String) :
    GetType (ErrorType.New C m) = C ∧
    GetErrorContext (ErrorType.New C m) = some [("field", ""), ("message", "")] :=
  ⟨rfl, by simp [ErrorType.New, customError.toError, getErrorContext_custom, emptyContext]⟩

/-- C2: for every category `C`, every input error `err` (typed of any category,
plain or nil), every message or format `f` and operands `args`, both
`C.Wrap(err, f)` and `C.Wrapf(err, f, args...)` have `GetType` equal to `C`:
the category given to a typed wrap overrides that of the source error. -/
theorem c2_typed_wrap_category_overrides (F : Fmt) (C : ErrorType) (err : GoError)
    (f : String) (args : List GoValue) :
    GetType (ErrorType.Wrap F C err f) = C ∧ GetType (ErrorType.Wrapf F C err f args) = C :=
  ⟨rfl, rfl⟩

/-- C3: for every typed error `te` (a `customError` of category `C`, of any
cause and context) and every message `m`, the generic `Wrap` keeps category and
context: `GetType(Wrap(te, m)) = C` and
`GetErrorContext(Wrap(te, m)) = GetErrorContext(te)`. -/
theorem c3_generic_wrap_keeps_category_and_context (F : Fmt) (C : ErrorType)
    (cause : GoError) (ctx : errorContext) (m : String) :
    GetType (Wrap F (GoError.custom C cause ctx) m) = C ∧
    GetErrorContext (Wrap F (GoError.custom C cause ctx) m) =
      GetErrorContext (GoError.custom C cause ctx) := by
  constructor
  · rfl
  · show GetErrorContext (Wrapf F (GoError.custom C cause ctx) m []) = _
    rw [wrapf_custom, getErrorContext_custom, getErrorContext_custom]

/-- C4: for every error `e` that is not a typed error (the type assertion to
`customError` fails) and every message `m`, the generic `Wrap` gives an
unclassified error with empty context: `GetType(Wrap(e, m)) = NoType` and
`GetErrorContext(Wrap(e, m))` is the map with field "" and message "". -/
theorem c4_generic_wrap_of_plain_is_notype (F : Fmt) (e : GoError) (m : String)
    (h : (assertCustomError e).2 = false) :
    GetType (Wrap F e m) = NoType ∧
    GetErrorContext (Wrap F e m) = some [("field", ""), ("message", "")] := by
  have hw : Wrap F e m = GoError.custom NoType (pkgerrors.Wrapf F e m []) emptyContext :=
    wrapf_of_not_ok F e h m []
  rw [hw, getType_custom, getErrorContext_custom]
  exact ⟨rfl, rfl⟩

/-- Witness of C4 at the plain error `pkgerrors.New("boom")` and the message "ctx". -/
theorem c4_generic_wrap_of_plain_is_notype_witness :
    (assertCustomError (pkgerrors.New "boom")).2 = false ∧
    GetType (Wrap Fmt.unexpanded (pkgerrors.New "boom") "ctx") = NoType ∧
    GetErrorContext (Wrap Fmt.unexpanded (pkgerrors.New "boom") "ctx") =
      some [("field", ""), ("message", "")] :=
  ⟨rfl, c4_generic_wrap_of_plain_is_notype Fmt.unexpanded (pkgerrors.New "boom") "ctx" rfl⟩

/-- C5: the category is an invariant of re-wrapping: for every category `C`,
every error `te` returned by a typed constructor of category `C` (`C.New`,
`C.Newf`, `C.Wrap`, `C.Wrapf`) and every finite sequence of steps, each a
generic `Wrap`, a generic `Wrapf` or an `AddErrorContext`, applied one after
another from `te`, the final error has `GetType` equal to `C`. -/
theorem c5_category_invariant_under_rewrapping (F : Fmt) (C : ErrorType) (te : GoError)
    (h : BuiltByTyped F C te) (ops : List Rewrap) :
    GetType (rewrapAll F ops te) = C := by
  rw [getType_rewrapAll, getType_of_builtByTyped F C te h]

/-- Witness of C5 at `NotFound.New("gone")` under a wrap, an annotation and a
formatted wrap. -/
theorem c5_category_invariant_under_rewrapping_witness :
    BuiltByTyped Fmt.unexpanded NotFound (ErrorType.New NotFound "gone") ∧
    GetType (rewrapAll Fmt.unexpanded
      [Rewrap.wrap "lookup", Rewrap.addContext "id" "unknown",
        Rewrap.wrapf "request %d" [GoValue.int 7]]
      (ErrorType.New NotFound "gone")) = NotFound :=
  ⟨Or.inl ⟨"gone", rfl⟩,
    c5_category_invariant_under_rewrapping Fmt.unexpanded NotFound
      (ErrorType.New NotFound "gone") (Or.inl ⟨"gone", rfl⟩) _⟩

/-- C6: round trip of `AddErrorContext`: for every typed error `te` (whatever
context it carries) and all strings `f` and `msg`,
`GetErrorContext(AddErrorContext(te, f, msg))` is exactly the map of the two
entries "field" -> `f` and "message" -> `msg`; a prior context is replaced. -/
theorem c6_add_error_context_round_trip (C : ErrorType) (cause : GoError)
    (ctx : errorContext) (f msg : String) :
    GetErrorContext (AddErrorContext (GoError.custom C cause ctx) f msg) =
      some [("field", f), ("message", msg)] := by
  rw [addErrorContext_custom, getErrorContext_custom]

/-- C7: `AddErrorContext` changes only the context of a typed error: for every
typed error `te` and all strings `f` and `msg`, the result has the category of
`te`, the same `originalError` (cause chain) and the same `Error()`. -/
theorem c7_add_error_context_frame (C : ErrorType) (cause : GoError)
    (ctx : errorContext) (f msg : String) :
    GetType (AddErrorContext (GoError.custom C cause ctx) f msg) =
      GetType (GoError.custom C cause ctx) ∧
    (assertCustomError (AddErrorContext (GoError.custom C cause ctx) f msg)).1.originalError =
      (assertCustomError (GoError.custom C cause ctx)).1.originalError ∧
    GoError.Error (AddErrorContext (GoError.custom C cause ctx) f msg) =
      GoError.Error (GoError.custom C cause ctx) :=
  ⟨rfl, rfl, rfl⟩

/-- C8: for every error `e` that is not a typed error and all strings `f` and
`msg`, `AddErrorContext(e, f, msg)` has `GetType` equal to `NoType`, has
`GetErrorContext` equal to the map "field" -> `f`, "message" -> `msg`, and holds
`e` itself as its cause with no added text, so its `Error()` is that of `e`. -/
theorem c8_add_error_context_of_plain (e : GoError) (f msg : String)
    (h : (assertCustomError e).2 = false) :
    GetType (AddErrorContext e f msg) = NoType ∧
    GetErrorContext (AddErrorContext e f msg) = some [("field", f), ("message", msg)] ∧
    (assertCustomError (AddErrorContext e f msg)).1.originalError = e ∧
    GoError.Error (AddErrorContext e f msg) = GoError.Error e := by
  rw [addErrorContext_of_not_ok e h, getType_custom, getErrorContext_custom]
  exact ⟨rfl, rfl, rfl, rfl⟩

/-- Witness of C8 at the plain error `pkgerrors.New("boom")`, whose text is kept. -/
theorem c8_add_error_context_of_plain_witness :
    (assertCustomError (pkgerrors.New "boom")).2 = false ∧
    GoError.Error (pkgerrors.New "boom") = some "boom" ∧
    GetType (AddErrorContext (pkgerrors.New "boom") "name" "empty") = NoType ∧
    GetErrorContext (AddErrorContext (pkgerrors.New "boom") "name" "empty") =
      some [("field", "name"), ("message", "empty")] ∧
    (assertCustomError (AddErrorContext (pkgerrors.New "boom") "name" "empty")).1.originalError =
      pkgerrors.New "boom" ∧
    GoError.Error (AddErrorContext (pkgerrors.New "boom") "name" "empty") =
      GoError.Error (pkgerrors.New "boom") :=
  ⟨rfl, rfl, c8_add_error_context_of_plain (pkgerrors.New "boom") "name" "empty" rfl⟩

/-- C9, on the code: `Cause(Wrap(Wrap(New("x"), "y"), "z"))` does not reach the
root. The outermost error is a `customError`, which has no method `Cause()`, so
`Cause` returns that outermost error itself, and its `Error()` is "z: y: x",
not "x". -/
theorem c9_cause_stops_at_outermost_typed_error (F : Fmt) :
    Cause (Wrap F (Wrap F (New "x") "y") "z") = Wrap F (Wrap F (New "x") "y") "z" ∧
    GoError.Error (Cause (Wrap F (Wrap F (New "x") "y") "z")) = some "z: y: x" ∧
    GoError.Error (Cause (Wrap F (Wrap F (New "x") "y") "z")) ≠ some "x" := by
  refine ⟨rfl, ?_, ?_⟩ <;>
    simp [Cause, Wrap, Wrapf, New, pkgerrors.Wrapf, pkgerrors.New, pkgerrors.Cause,
      customError.toError, assertCustomError, GoError.Error, Sprintf, isVerbatim]

/-- C10, on the code: for `base := pkgerrors.New("disk full")` and
`wrapped := BadRequest.Wrap(base, "save failed")`, `GetType(wrapped)` is
`BadRequest`, but `Cause(wrapped)` is `wrapped` itself and its `Error()` is
"save failed: disk full", not "disk full". -/
theorem c10_cause_of_typed_wrap_is_the_wrap (F : Fmt) :
    GetType (ErrorType.Wrap F BadRequest (pkgerrors.New "disk full") "save failed") =
      BadRequest ∧
    Cause (ErrorType.Wrap F BadRequest (pkgerrors.New "disk full") "save failed") =
      ErrorType.Wrap F BadRequest (pkgerrors.New "disk full") "save failed" ∧
    GoError.Error (Cause (ErrorType.Wrap F BadRequest (pkgerrors.New "disk full") "save failed")) =
      some "save failed: disk full" ∧
    GoError.Error (Cause (ErrorType.Wrap F BadRequest (pkgerrors.New "disk full") "save failed")) ≠
      some "disk full" := by
  refine ⟨rfl, rfl, ?_, ?_⟩ <;>
    simp [Cause, ErrorType.Wrap, ErrorType.Wrapf, pkgerrors.Wrapf, pkgerrors.New,
      pkgerrors.Cause, customError.toError, GoError.Error, Sprintf, isVerbatim]

/-! ## Helper lemmas on texts -/

/-- The text of `pkgerrors.Wrapf(err, ...)`: the formatted message, ": ", and
the text of `err`; a panic when `err` has none. -/
theorem error_pkgWrapf (F : Fmt) (e : GoError) (format : String) (args : List GoValue) :
    GoError.Error (pkgerrors.Wrapf F e format args) =
      (GoError.Error e).map (fun s => Sprintf F format args ++ ": " ++ s) := by
  cases e <;> rfl

/-- An annotation leaves the text as it is. -/
theorem error_addErrorContext (e : GoError) (field message : String) :
    GoError.Error (AddErrorContext e field message) = GoError.Error e := by
  cases e <;> rfl

/-- The generic `Wrapf` puts the formatted message before the text. -/
theorem error_wrapf (F : Fmt) (e : GoError) (format : String) (args : List GoValue) :
    GoError.Error (Wrapf F e format args) =
      (GoError.Error e).map (fun s => Sprintf F format args ++ ": " ++ s) := by
  rw [← error_pkgWrapf]
  cases e <;> rfl

/-- The typed `Wrapf` puts the formatted message before the text. -/
theorem error_typedWrapf (F : Fmt) (C : ErrorType) (e : GoError) (format : String)
    (args : List GoValue) :
    GoError.Error (ErrorType.Wrapf F C e format args) =
      (GoError.Error e).map (fun s => Sprintf F format args ++ ": " ++ s) := by
  rw [← error_pkgWrapf]
  rfl

/-- The context the generic `Wrapf` returns is that of its input. -/
theorem getErrorContext_wrapf_addErrorContext (F : Fmt) (e : GoError) (f msg format : String)
    (args : List GoValue) :
    GetErrorContext (Wrapf F (AddErrorContext e f msg) format args) =
      some [("field", f), ("message", msg)] := by
  cases e <;> simp [AddErrorContext, assertCustomError, customError.toError, wrapf_custom,
    getErrorContext_custom]

/-- A format without a directive `%w` keeps none in what follows its first
character. -/
theorem hasVerbWChars_tail (c : Char) (rest : List Char)
    (h : hasVerbWChars (c :: rest) = false) : hasVerbWChars rest = false := by
  simp only [hasVerbWChars, Bool.or_eq_false_iff] at h
  exact h.2

/-- Where the format has no directive `%w`, or no operand is a non-nil error,
the scan does not depend on `wrapErrs`. -/
theorem doPrintfFragment_wrapErrs_aux (F : Fmt) (n : Nat) :
    ∀ (l : List Char) (args : List GoValue), l.length ≤ n →
      (hasVerbWChars l = false ∨ args.any isErrorOperand = false) →
      doPrintfFragment F true l args = doPrintfFragment F false l args := by
  induction n with
  | zero =>
    intro l args hl _
    have : l = [] := List.length_eq_zero.mp (Nat.le_zero.mp hl)
    subst this
    cases args <;> rfl
  | succ n ih =>
    intro l args hl hw
    match l, args with
    | [], [] => rfl
    | [], _ :: _ => rfl
    | c :: rest, args =>
      by_cases hc : c = '%'
      · subst hc
        unfold doPrintfFragment
        simp only [if_true]
        split
        · rfl
        · rename_i rest1 k args1
          have hr : doPrintfFragment F true rest1 args1 =
              doPrintfFragment F false rest1 args1 := by
            apply ih
            · simp at hl; omega
            · rcases hw with hw | hw
              · exact Or.inl (hasVerbWChars_tail _ _ (hasVerbWChars_tail _ _ hw))
              · exact Or.inr (by simpa [isErrorOperand] using hw)
          rw [hr]
        · rename_i rest1 e args1
          have hargs : (GoValue.err e :: args1).any isErrorOperand = false := by
            rcases hw with hw | hw
            · simp [hasVerbWChars, verbWFollows] at hw
            · exact hw
          by_cases he : e = GoError.nil
          · subst he
            have hr : doPrintfFragment F true rest1 args1 =
                doPrintfFragment F false rest1 args1 := by
              apply ih
              · simp at hl; omega
              · exact Or.inr (by simpa [isErrorOperand] using hargs)
            simp only [if_true, hr]
          · have hop : isErrorOperand (GoValue.err e) = true := by
              cases e <;> first | exact absurd rfl he | rfl
            simp [hop] at hargs
        · rfl
      · have hr : doPrintfFragment F true rest args = doPrintfFragment F false rest args := by
          apply ih
          · simp at hl; omega
          · rcases hw with hw | hw
            · exact Or.inl (hasVerbWChars_tail _ _ hw)
            · exact Or.inr hw
        unfold doPrintfFragment
        simp only [hc, if_false, hr]

/-- For a format without a directive `%w`, and for operands none of which is a
non-nil error, `fmt.Errorf` and `fmt.Sprintf` give the same text. -/
theorem errorfText_eq_sprintf (F : Fmt) (format : String) (args : List GoValue)
    (h : hasVerbW format = false ∨ args.any isErrorOperand = false) :
    errorfText F format args = Sprintf F format args := by
  have hfrag : doPrintfFragment F true format.toList args =
      doPrintfFragment F false format.toList args :=
    doPrintfFragment_wrapErrs_aux F format.toList.length format.toList args (Nat.le_refl _) h
  have hcond : (hasVerbW format && args.any isErrorOperand) = false := by
    rcases h with h | h <;> simp [h]
  unfold errorfText Sprintf
  rw [hfrag, hcond]
  rfl

/-! ## The claims, continued -/

/-- C11: the text of a freshly constructed typed error is exactly its message
and shows neither category nor context: for all categories `C1`, `C2` and every
message `m`, `C1.New(m).Error() = C2.New(m).Error() = New(m).Error() = m`. -/
theorem c11_new_text_is_the_message (C1 C2 : ErrorType) (m : String) :
    GoError.Error (ErrorType.New C1 m) = some m ∧
    GoError.Error (ErrorType.New C2 m) = some m ∧
    GoError.Error (New m) = some m ∧
    GoError.Error (ErrorType.New C1 m) = GoError.Error (ErrorType.New C2 m) :=
  ⟨rfl, rfl, rfl, rfl⟩

/-- C13: `GetErrorContext` returns the nil map exactly when its input is not a
typed error: for a typed error, also one whose context was never set, it
returns the map of the two entries of the context; for any other error it
returns nil. The disjunct `customErr.context != emptyContext` never changes the
result: the result is decided by `ok` alone. -/
theorem c13_get_error_context_nil_iff_not_typed (e : GoError) :
    (GetErrorContext e = none ↔ (assertCustomError e).2 = false) ∧
    GetErrorContext e =
      (if (assertCustomError e).2 then
        some [("field", (assertCustomError e).1.context.Field),
          ("message", (assertCustomError e).1.context.Message)]
      else none) := by
  cases e <;> simp [GetErrorContext, assertCustomError, customError.zero]

/-- C14: the accessors have defined defaults on errors that this package did
not build: for every error `e` that is not a `customError`, the nil error
included, `GetType(e) = NoType` and `GetErrorContext(e)` is nil; `Cause(e)` is
a value of the total function `Cause`, and it is `e` itself when `e` has no
method `Cause()`, as for an error of `pkgerrors.New` with no wrapping. -/
theorem c14_accessors_default_on_foreign (e : GoError)
    (h : (assertCustomError e).2 = false) :
    GetType e = NoType ∧ GetErrorContext e = none ∧
    (hasCauseMethod e = false → Cause e = e) := by
  refine ⟨getType_of_not_ok e h, ?_, ?_⟩
  · simp [GetErrorContext, assertCustomError_of_not_ok e h, customError.zero]
  · intro hc
    cases e <;> first | rfl | simp [hasCauseMethod] at hc

/-- Witness of C14 at the unwrapped error `pkgerrors.New("boom")` and at the nil
error. -/
theorem c14_accessors_default_on_foreign_witness :
    ((assertCustomError (pkgerrors.New "boom")).2 = false ∧
      hasCauseMethod (pkgerrors.New "boom") = false ∧
      GetType (pkgerrors.New "boom") = NoType ∧
      GetErrorContext (pkgerrors.New "boom") = none ∧
      Cause (pkgerrors.New "boom") = pkgerrors.New "boom") ∧
    ((assertCustomError GoError.nil).2 = false ∧
      GetType GoError.nil = NoType ∧
      GetErrorContext GoError.nil = none ∧
      Cause GoError.nil = GoError.nil) :=
  ⟨⟨rfl, rfl, (c14_accessors_default_on_foreign (pkgerrors.New "boom") rfl).1,
      (c14_accessors_default_on_foreign (pkgerrors.New "boom") rfl).2.1,
      (c14_accessors_default_on_foreign (pkgerrors.New "boom") rfl).2.2 rfl⟩,
    ⟨rfl, (c14_accessors_default_on_foreign GoError.nil rfl).1,
      (c14_accessors_default_on_foreign GoError.nil rfl).2.1,
      (c14_accessors_default_on_foreign GoError.nil rfl).2.2 rfl⟩⟩

/-- C16: a repeated annotation overwrites, last write wins: for every error `e`
(typed, plain or nil) and all strings `f1`, `m1`, `f2`, `m2`, the first
annotation stores the context `f1`, `m1`, and
`AddErrorContext(AddErrorContext(e, f1, m1), f2, m2)` carries the context `f2`,
`m2` and nothing of the first one, with the category of `e`, the cause and the
text that the first annotation had: it is equal to `AddErrorContext(e, f2, m2)`.
With the same arguments twice, `AddErrorContext` is idempotent. -/
theorem c16_add_error_context_last_write_wins (e : GoError) (f1 m1 f2 m2 : String) :
    AddErrorContext (AddErrorContext e f1 m1) f2 m2 = AddErrorContext e f2 m2 ∧
    AddErrorContext (AddErrorContext e f2 m2) f2 m2 = AddErrorContext e f2 m2 ∧
    GetErrorContext (AddErrorContext e f1 m1) = some [("field", f1), ("message", m1)] ∧
    GetErrorContext (AddErrorContext (AddErrorContext e f1 m1) f2 m2) =
      some [("field", f2), ("message", m2)] ∧
    (assertCustomError (AddErrorContext (AddErrorContext e f1 m1) f2 m2)).1.context =
      { Field := f2, Message := m2 } ∧
    GetType (AddErrorContext (AddErrorContext e f1 m1) f2 m2) = GetType e ∧
    causeField (AddErrorContext (AddErrorContext e f1 m1) f2 m2) =
      causeField (AddErrorContext e f1 m1) ∧
    causeField (AddErrorContext e f1 m1) =
      (if (assertCustomError e).2 then causeField e else e) ∧
    GoError.Error (AddErrorContext (AddErrorContext e f1 m1) f2 m2) = GoError.Error e := by
  refine ⟨?_, ?_, ?_, ?_, ?_, ?_, ?_, ?_, ?_⟩
  · cases e <;> rfl
  · cases e <;> rfl
  · cases e <;> simp [AddErrorContext, assertCustomError, customError.toError,
      getErrorContext_custom]
  · cases e <;> simp [AddErrorContext, assertCustomError, customError.toError,
      getErrorContext_custom]
  · cases e <;> rfl
  · rw [getType_addErrorContext, getType_addErrorContext]
  · cases e <;> rfl
  · cases e <;> rfl
  · rw [error_addErrorContext, error_addErrorContext]

/-- C18: `Cause` is the identity on every typed error: `customError` has only
the method `Error()`, so for every `customError` value `te` (what every
constructor, wrap and `AddErrorContext` of the package returns), `Cause(te)` is
`te` itself and `Cause(te).Error() = te.Error()`. -/
theorem c18_cause_is_identity_on_typed (te : GoError)
    (h : (assertCustomError te).2 = true) :
    Cause te = te ∧ GoError.Error (Cause te) = GoError.Error te := by
  cases te <;> first | exact ⟨rfl, rfl⟩ | simp [assertCustomError] at h

/-- Witness of C18 at a typed error that was annotated and then wrapped. -/
theorem c18_cause_is_identity_on_typed_witness :
    (assertCustomError (Wrap Fmt.unexpanded
      (AddErrorContext (ErrorType.New NotFound "gone") "id" "unknown") "lookup")).2 = true ∧
    Cause (Wrap Fmt.unexpanded
      (AddErrorContext (ErrorType.New NotFound "gone") "id" "unknown") "lookup") =
      Wrap Fmt.unexpanded
        (AddErrorContext (ErrorType.New NotFound "gone") "id" "unknown") "lookup" ∧
    GoError.Error (Cause (Wrap Fmt.unexpanded
      (AddErrorContext (ErrorType.New NotFound "gone") "id" "unknown") "lookup")) =
      GoError.Error (Wrap Fmt.unexpanded
        (AddErrorContext (ErrorType.New NotFound "gone") "id" "unknown") "lookup") :=
  ⟨rfl, c18_cause_is_identity_on_typed _ rfl⟩

/-- C19: a typed wrap drops the context that a generic wrap keeps: for every
category `C`, every error `e`, all strings `f`, `msg` and every message `m`,
`GetErrorContext(C.Wrap(AddErrorContext(e, f, msg), m))` is the map with field
"" and message "", and `GetErrorContext(Wrap(AddErrorContext(e, f, msg), m))`
is the map "field" -> `f`, "message" -> `msg`. -/
theorem c19_typed_wrap_drops_context (F : Fmt) (C : ErrorType) (e : GoError)
    (f msg m : String) :
    GetErrorContext (ErrorType.Wrap F C (AddErrorContext e f msg) m) =
      some [("field", ""), ("message", "")] ∧
    GetErrorContext (Wrap F (AddErrorContext e f msg) m) =
      some [("field", f), ("message", msg)] :=
  ⟨by simp [ErrorType.Wrap, ErrorType.Wrapf, customError.toError, getErrorContext_custom,
      emptyContext],
    getErrorContext_wrapf_addErrorContext F e f msg m []⟩

/-- C20: generic wrapping and annotation commute as far as the accessors see:
for every error `e` (typed or plain), every message `m` and all strings `f`,
`msg`, the errors `Wrap(AddErrorContext(e, f, msg), m)` and
`AddErrorContext(Wrap(e, m), f, msg)` have the same `GetType`, the same
`GetErrorContext` and the same `Error()`. -/
theorem c20_wrap_and_annotation_commute (F : Fmt) (e : GoError) (m f msg : String) :
    GetType (Wrap F (AddErrorContext e f msg) m) =
      GetType (AddErrorContext (Wrap F e m) f msg) ∧
    GetErrorContext (Wrap F (AddErrorContext e f msg) m) =
      GetErrorContext (AddErrorContext (Wrap F e m) f msg) ∧
    GoError.Error (Wrap F (AddErrorContext e f msg) m) =
      GoError.Error (AddErrorContext (Wrap F e m) f msg) := by
  refine ⟨?_, ?_, ?_⟩
  · show GetType (Wrapf F (AddErrorContext e f msg) m []) =
      GetType (AddErrorContext (Wrapf F e m []) f msg)
    rw [getType_wrapf, getType_addErrorContext, getType_addErrorContext, getType_wrapf]
  · show GetErrorContext (Wrapf F (AddErrorContext e f msg) m []) =
      GetErrorContext (AddErrorContext (Wrapf F e m []) f msg)
    rw [getErrorContext_wrapf_addErrorContext]
    cases e <;> rfl
  · show GoError.Error (Wrapf F (AddErrorContext e f msg) m []) =
      GoError.Error (AddErrorContext (Wrapf F e m []) f msg)
    rw [error_wrapf, error_addErrorContext, error_addErrorContext, error_wrapf]

/-- C12, on the code: `Wrap` and `C.Wrap` hand their message to `Wrapf` as a
format, so a `%` in it is read as a directive. For `err := pkgerrors.New("boom")`
and the message "100%", both `BadRequest.Wrap(err, "100%").Error()` and
`Wrap(err, "100%").Error()` are "100%!(NOVERB): boom", not "100%: boom". -/
theorem c12_wrap_reads_message_as_format (F : Fmt) :
    GoError.Error (ErrorType.Wrap F BadRequest (pkgerrors.New "boom") "100%") =
      some "100%!(NOVERB): boom" ∧
    GoError.Error (Wrap F (pkgerrors.New "boom") "100%") = some "100%!(NOVERB): boom" ∧
    GoError.Error (ErrorType.Wrap F BadRequest (pkgerrors.New "boom") "100%") ≠
      (GoError.Error (pkgerrors.New "boom")).map (fun s => "100%" ++ ": " ++ s) ∧
    GoError.Error (Wrap F (pkgerrors.New "boom") "100%") ≠
      (GoError.Error (pkgerrors.New "boom")).map (fun s => "100%" ++ ": " ++ s) := by
  have hs : Sprintf F "100%" [] = "100%!(NOVERB)" := by
    simp [Sprintf, isVerbatim, doPrintfFragment]
  have h1 : GoError.Error (ErrorType.Wrap F BadRequest (pkgerrors.New "boom") "100%") =
      some "100%!(NOVERB): boom" := by
    show GoError.Error (ErrorType.Wrapf F BadRequest (pkgerrors.New "boom") "100%" []) = _
    rw [error_typedWrapf, hs]
    decide
  have h2 : GoError.Error (Wrap F (pkgerrors.New "boom") "100%") =
      some "100%!(NOVERB): boom" := by
    show GoError.Error (Wrapf F (pkgerrors.New "boom") "100%" []) = _
    rw [error_wrapf, hs]
    decide
  refine ⟨h1, h2, ?_, ?_⟩
  · rw [h1]; decide
  · rw [h2]; decide

/-- C15, counterexample: for the nil input error, `BadRequest.Wrap(nil, m)`,
`Wrap(nil, m)` and `AddErrorContext(nil, f, msg)` are typed errors whose cause
is nil, and `Error()` on each of them panics. -/
theorem c15_nil_input_gives_nil_cause :
    ((assertCustomError
        (ErrorType.Wrap Fmt.unexpanded BadRequest GoError.nil "save failed")).2 = true ∧
      causeField (ErrorType.Wrap Fmt.unexpanded BadRequest GoError.nil "save failed") =
        GoError.nil ∧
      GoError.Error (ErrorType.Wrap Fmt.unexpanded BadRequest GoError.nil "save failed") =
        none) ∧
    (causeField (Wrap Fmt.unexpanded GoError.nil "save failed") = GoError.nil ∧
      GoError.Error (Wrap Fmt.unexpanded GoError.nil "save failed") = none) ∧
    (causeField (AddErrorContext GoError.nil "name" "empty") = GoError.nil ∧
      GoError.Error (AddErrorContext GoError.nil "name" "empty") = none) :=
  ⟨⟨rfl, rfl, rfl⟩, ⟨rfl, rfl⟩, ⟨rfl, rfl⟩⟩

/-- C15, amended: every typed error returned by `C.New`, `C.Newf`, `New` and
`Newf` has a non-nil cause and its `Error()` returns; and for every input error
`e` whose own `Error()` returns (so `e` is not the nil error), every typed
error returned by `C.Wrap`, `C.Wrapf`, `Wrap`, `Wrapf` and `AddErrorContext` on
`e` has a non-nil cause and its `Error()` returns. -/
theorem c15_results_have_cause_when_input_renders (F : Fmt) (C : ErrorType)
    (m format f msg : String) (args : List GoValue) (e : GoError)
    (h : GoError.Error e ≠ none) :
    ∀ r ∈ [ErrorType.New C m, ErrorType.Newf F C format args, New m, Newf F format args,
        ErrorType.Wrap F C e m, ErrorType.Wrapf F C e format args, Wrap F e m,
        Wrapf F e format args, AddErrorContext e f msg],
      (assertCustomError r).2 = true ∧ causeField r ≠ GoError.nil ∧
        GoError.Error r ≠ none := by
  have hne : e ≠ GoError.nil := by
    intro hn
    exact h (by rw [hn]; rfl)
  have hmap : ∀ g : String → String, (GoError.Error e).map g ≠ none := by
    intro g
    cases he : GoError.Error e with
    | none => exact absurd he h
    | some s => simp
  have hpkg : ∀ (fm : String) (a : List GoValue), pkgerrors.Wrapf F e fm a ≠ GoError.nil := by
    intro fm a
    cases e <;> first | exact absurd rfl hne | simp [pkgerrors.Wrapf]
  have hwrapf : ∀ (fm : String) (a : List GoValue),
      (assertCustomError (Wrapf F e fm a)).2 = true ∧ causeField (Wrapf F e fm a) ≠ GoError.nil ∧
        GoError.Error (Wrapf F e fm a) ≠ none := by
    intro fm a
    refine ⟨?_, ?_, ?_⟩
    · cases e <;> rfl
    · have hc : causeField (Wrapf F e fm a) = pkgerrors.Wrapf F e fm a := by
        cases e <;> rfl
      rw [hc]
      exact hpkg fm a
    · rw [error_wrapf]
      exact hmap _
  have htyped : ∀ (fm : String) (a : List GoValue),
      (assertCustomError (ErrorType.Wrapf F C e fm a)).2 = true ∧
        causeField (ErrorType.Wrapf F C e fm a) ≠ GoError.nil ∧
        GoError.Error (ErrorType.Wrapf F C e fm a) ≠ none := by
    intro fm a
    refine ⟨rfl, hpkg fm a, ?_⟩
    rw [error_typedWrapf]
    exact hmap _
  intro r hr
  simp only [List.mem_cons, List.mem_singleton, List.not_mem_nil, or_false] at hr
  rcases hr with rfl | rfl | rfl | rfl | rfl | rfl | rfl | rfl | rfl
  · exact ⟨rfl, by simp [causeField, ErrorType.New, customError.toError, assertCustomError,
      pkgerrors.New], by simp [ErrorType.New, customError.toError, pkgerrors.New, GoError.Error]⟩
  · exact ⟨rfl, by simp [causeField, ErrorType.Newf, customError.toError, assertCustomError,
      Errorf], by simp [ErrorType.Newf, customError.toError, Errorf, GoError.Error]⟩
  · exact ⟨rfl, by simp [causeField, New, customError.toError, assertCustomError,
      pkgerrors.New], by simp [New, customError.toError, pkgerrors.New, GoError.Error]⟩
  · exact ⟨rfl, by simp [causeField, Newf, customError.toError, assertCustomError,
      pkgerrors.New], by simp [Newf, customError.toError, pkgerrors.New, GoError.Error]⟩
  · exact htyped m []
  · exact htyped format args
  · exact hwrapf m []
  · exact hwrapf format args
  · refine ⟨?_, ?_, ?_⟩
    · cases e <;> rfl
    · cases e <;> first | exact absurd rfl hne | simp [causeField, AddErrorContext,
        assertCustomError, customError.toError, customError.zero]
      intro hn
      apply h
      rw [hn]
      rfl
    · rw [error_addErrorContext]
      exact h

/-- Witness of C15 (amended) at the input error `pkgerrors.New("disk full")`,
read off for `BadRequest.Wrap(e, "save failed")`. -/
theorem c15_results_have_cause_when_input_renders_witness :
    GoError.Error (pkgerrors.New "disk full") ≠ none ∧
    (assertCustomError
      (ErrorType.Wrap Fmt.unexpanded BadRequest (pkgerrors.New "disk full") "save failed")).2 =
        true ∧
    causeField
      (ErrorType.Wrap Fmt.unexpanded BadRequest (pkgerrors.New "disk full") "save failed") ≠
        GoError.nil ∧
    GoError.Error
      (ErrorType.Wrap Fmt.unexpanded BadRequest (pkgerrors.New "disk full") "save failed") ≠
        none :=
  ⟨by decide,
    c15_results_have_cause_when_input_renders Fmt.unexpanded BadRequest "save failed"
      "code %d" "name" "empty" [GoValue.int 7] (pkgerrors.New "disk full") (by decide)
      (ErrorType.Wrap Fmt.unexpanded BadRequest (pkgerrors.New "disk full") "save failed")
      (by simp)⟩

/-- C17, counterexample: with the format "%w" and the operand
`pkgerrors.New("boom")`, `NotFound.Newf` goes through `fmt.Errorf`, which
serves `%w`, and its `Error()` is "boom"; the generic `Newf` goes through
`fmt.Sprintf`, where `%w` fits no operand, and its `Error()` is "%!w(...)".
So the two texts are not the same for every format and operand list. -/
theorem c17_newf_texts_differ_on_verb_w :
    (∀ F : Fmt,
      GoError.Error (ErrorType.Newf F NotFound "%w" [GoValue.err (pkgerrors.New "boom")]) =
        some "boom" ∧
      GoError.Error (Newf F "%w" [GoValue.err (pkgerrors.New "boom")]) =
        some ("%!w(" ++ F.operandText (GoValue.err (pkgerrors.New "boom")) ++ ")")) ∧
    ¬ ∀ (F : Fmt) (C : ErrorType) (format : String) (args : List GoValue),
      GoError.Error (ErrorType.Newf F C format args) = GoError.Error (Newf F format args) := by
  have hE : ∀ F : Fmt,
      GoError.Error (ErrorType.Newf F NotFound "%w" [GoValue.err (pkgerrors.New "boom")]) =
        some "boom" := by
    intro F
    simp [ErrorType.Newf, customError.toError, Errorf, errorfText, isVerbatim,
      doPrintfFragment, wrappedOperandText, pkgerrors.New, GoError.Error]
  have hS : ∀ F : Fmt,
      GoError.Error (Newf F "%w" [GoValue.err (pkgerrors.New "boom")]) =
        some ("%!w(" ++ F.operandText (GoValue.err (pkgerrors.New "boom")) ++ ")") := by
    intro F
    simp [Newf, customError.toError, Sprintf, isVerbatim, doPrintfFragment, pkgerrors.New,
      GoError.Error]
    apply String.ext
    simp
  refine ⟨fun F => ⟨hE F, hS F⟩, ?_⟩
  intro hall
  have hbad := hall Fmt.unexpanded NotFound "%w" [GoValue.err (pkgerrors.New "boom")]
  rw [hE, hS] at hbad
  revert hbad
  decide

/-- C17, amended: for every category `C`, every format and operand list,
`C.Newf(format, args...)` has `GetType` equal to `C` and its `Error()` returns
the `Error()` of `fmt.Errorf(format, args...)`; and whenever the format has no
directive `%w`, or no operand is a non-nil error, that text is the one
`fmt.Sprintf` gives, the same as the `Error()` of the generic
`Newf(format, args...)`. -/
theorem c17_typed_newf_category_and_text (F : Fmt) (C : ErrorType) (format : String)
    (args : List GoValue) :
    GetType (ErrorType.Newf F C format args) = C ∧
    GoError.Error (ErrorType.Newf F C format args) = GoError.Error (Errorf F format args) ∧
    (GoError.Error (ErrorType.Newf F C format args)).isSome = true ∧
    ((hasVerbW format = false ∨ args.any isErrorOperand = false) →
      GoError.Error (ErrorType.Newf F C format args) = some (Sprintf F format args) ∧
      GoError.Error (ErrorType.Newf F C format args) = GoError.Error (Newf F format args)) := by
  have ht : GoError.Error (ErrorType.Newf F C format args) = some (errorfText F format args) :=
    rfl
  have hn : GoError.Error (Newf F format args) = some (Sprintf F format args) := rfl
  refine ⟨rfl, rfl, rfl, ?_⟩
  intro h
  constructor
  · rw [ht, errorfText_eq_sprintf F format args h]
  · rw [ht, hn, errorfText_eq_sprintf F format args h]

/-- Witness of C17 (amended): `NotFound.Newf("user %d missing", 42)` has the
category `NotFound` and the text "user 42 missing", that of the generic `Newf`;
and for "%d rows written" with 3, a format with a `w` in its plain text, the
typed and the generic `Newf` both give "3 rows written". -/
theorem c17_typed_newf_category_and_text_witness :
    (hasVerbW "user %d missing" = false ∧
      GoError.Error (Newf Fmt.unexpanded "user %d missing" [GoValue.int 42]) =
        some "user 42 missing" ∧
      GetType (ErrorType.Newf Fmt.unexpanded NotFound "user %d missing" [GoValue.int 42]) =
        NotFound ∧
      GoError.Error
          (ErrorType.Newf Fmt.unexpanded NotFound "user %d missing" [GoValue.int 42]) =
        GoError.Error (Newf Fmt.unexpanded "user %d missing" [GoValue.int 42])) ∧
    (hasVerbW "%d rows written" = false ∧
      GoError.Error (Newf Fmt.unexpanded "%d rows written" [GoValue.int 3]) =
        some "3 rows written" ∧
      GoError.Error (ErrorType.Newf Fmt.unexpanded NotFound "%d rows written" [GoValue.int 3]) =
        GoError.Error (Newf Fmt.unexpanded "%d rows written" [GoValue.int 3])) :=
  ⟨⟨by decide,
      by simp [Newf, customError.toError, pkgerrors.New, GoError.Error, Sprintf, isVerbatim,
        doPrintfFragment]; decide,
      (c17_typed_newf_category_and_text Fmt.unexpanded NotFound "user %d missing"
        [GoValue.int 42]).1,
      ((c17_typed_newf_category_and_text Fmt.unexpanded NotFound "user %d missing"
        [GoValue.int 42]).2.2.2 (Or.inl (by decide))).2⟩,
    ⟨by decide,
      by simp [Newf, customError.toError, pkgerrors.New, GoError.Error, Sprintf, isVerbatim,
        doPrintfFragment]; decide,
      ((c17_typed_newf_category_and_text Fmt.unexpanded NotFound "%d rows written"
        [GoValue.int 3]).2.2.2 (Or.inl (by decide))).2⟩⟩

end Errors
